import Mathlib

/-!
Verification of the `biblionotes` pipeline (src/main.rs): a batch tool that
turns a BibTeX bibliography plus a directory of per-entry Markdown notes into
per-entry HTML pages and an index page.

The shallow embedding models `main`, `read_bib` and `make_index` from the
source.  External collaborators (the `bib_parser` crate, `pandoc`, and
`handlebars`) as well as the filesystem are represented by an environment of
abstract deterministic functions, exactly at the call boundaries the Rust code
uses.
-/

namespace Biblionotes

/-- A parsed bibliography record, as exposed by `bib_parser::Entry` through its
`title()`, `author()` (display string) and `year()` accessors. -/
structure Entry where
  title : String
  author : String
  year : String
deriving DecidableEq

/-- The state of a file on disk as observed through the two-step Rust access
pattern `File::open` followed by `read_to_string`/`read_to_end`:
`absent` means `File::open` fails with not-found (the file does not exist);
`openError` means the file exists but `File::open` fails anyway (permissions
or another I/O failure at open time); `unreadable` means `File::open`
succeeds but the subsequent read fails; `readable c` means the read succeeds
with contents `c`. -/
inductive FileState where
  | absent
  | openError
  | unreadable
  | readable (contents : String)
deriving DecidableEq

/-- The environment of a run: the filesystem (keyed by path string) and the
external collaborators, each a deterministic function at the exact boundary
the Rust code calls it. -/
structure Env where
  /-- State of the file at each path (bibliography, template, markdown notes). -/
  fs : String → FileState
  /-- `bib_parser::parse_bib` applied to the bibliography bytes: either a
  structural failure (fatal) or the ordered `(key, optional record)` list. -/
  parseBib : String → Except String (List (String × Option Entry))
  /-- Whether `Handlebars::register_template_string` succeeds on the given
  template text. -/
  registerOk : String → Bool
  /-- Running pandoc (markdown → HTML5, MathJax enabled) on the given input;
  `none` models a pandoc failure, which the code treats as fatal. -/
  pandocRun : String → Option String
  /-- `hbs.render "t" data`: first argument is the registered template text,
  second the data map in `BTreeMap` (key-sorted) order; `none` is a render
  failure, which the code treats as fatal. -/
  hbsRender : String → List (String × String) → Option String
  /-- Whether `File::create` succeeds at the given output path. -/
  createOk : String → Bool
  /-- Whether `writeln!` to the created file at the given path succeeds. -/
  writeOk : String → Bool

/-- The observable outcome of one invocation. `usage` is the wrong-arity
branch (message to stderr, no file touched); `fatal` is a panic via
`expect`/`unwrap`, carrying the output files already written; `ok` is normal
completion with the ordered list of `(path, contents)` writes. -/
inductive RunResult where
  | usage (msg : String)
  | fatal (writes : List (String × String)) (msg : String)
  | ok (writes : List (String × String))
deriving DecidableEq

/-- True exactly on the `fatal` outcome. -/
def RunResult.isFatal : RunResult → Bool
  | .fatal _ _ => true
  | _ => false

/-- True exactly on the `ok` (normal completion) outcome. -/
def RunResult.completed : RunResult → Bool
  | .ok _ => true
  | _ => false

/-- `read_bib` from the source: open the bibliography (any open failure is
fatal), read it fully (read failure is fatal), and delegate to
`bib_parser::parse_bib` (a parse error panics). -/
def read_bib (env : Env) (bibPath : String) :
    Except String (List (String × Option Entry)) :=
  match env.fs bibPath with
  | FileState.absent => Except.error "Could not open bibliography"
  | FileState.openError => Except.error "Could not open bibliography"
  | FileState.unreadable => Except.error "read_to_end failed"
  | FileState.readable bs => env.parseBib bs

/-- The fixed introduction emitted by `make_index`.  In the source it is a
Rust raw string literal (`r#"..."#`), so the two `\"` sequences around
`nonetype` are NOT escape sequences: each is a literal backslash followed by
a quotation mark, reproduced here by `\\\"`. -/
def indexIntro : String :=
  "<h1>Annotated bibliography</h1>\n<p>This is an annotated bibliography of various papers I find interesting. It is automatically generated from a BibTeX file and an archive of Markdown files.</p>\n<ul class=\\\"nonetype\\\">\n"

/-- One list item of the index, from the format string
`"<li>{} ({}) <a href=\"{}\">{}</a>\n"` applied to
`(link, author, year, title)`. -/
def indexItem : String × String × String × String → String
  | (link, author, year, title) =>
    "<li>" ++ author ++ " (" ++ year ++ ") <a href=\"" ++ link ++ "\">" ++
      title ++ "</a>\n"

/-- `make_index` from the source: start from the introduction, append one
item per index record in order, then close the list. -/
def makeIndex (index : List (String × String × String × String)) : String :=
  (index.foldl (fun content r => content ++ indexItem r) indexIntro) ++ "</ul>"

/-- The citation header prepended to each rendered page, from the format
string
`"<header><h1>{}</h1><cite>{} ({}) <em>{}</em></cite></header>\n"`
applied to title, author, year and title again. -/
def headerFragment (e : Entry) : String :=
  "<header><h1>" ++ e.title ++ "</h1><cite>" ++ e.author ++ " (" ++ e.year ++
    ") <em>" ++ e.title ++ "</em></cite></header>\n"

/-- The body of the per-entry loop in `main`, for one `(key, entry)` pair.
Returns `Except.error msg` when the iteration panics (fatal for the run), and
otherwise the list of `(path, contents)` files written by this entry together
with the index record pushed (both empty on a skip).  The data map passed to
handlebars is listed in `BTreeMap` key order: `"content" < "title"`. -/
def processEntry (env : Env) (templ mdDir outDir key : String)
    (entry? : Option Entry) :
    Except String
      (List (String × String) × Option (String × String × String × String)) :=
  match entry? with
  | none => Except.ok ([], none)
  | some entry =>
    match env.fs (mdDir ++ "/" ++ key ++ ".md") with
    | FileState.absent => Except.ok ([], none)
    | FileState.openError => Except.ok ([], none)
    | FileState.unreadable => Except.error "Could not read markdown file"
    | FileState.readable mdContents =>
      match env.pandocRun mdContents with
      | none => Except.error "Could not run pandoc"
      | some body =>
        let rendered := headerFragment entry ++ body
        match env.hbsRender templ
            [("content", rendered), ("title", entry.title)] with
        | none => Except.error "Handlebars failed to run"
        | some renderedAgain =>
          let htmlName := key ++ ".html"
          let htmlPath := outDir ++ "/" ++ htmlName
          if env.createOk htmlPath then
            if env.writeOk htmlPath then
              Except.ok ([(htmlPath, renderedAgain ++ "\n")],
                some (htmlName, entry.author, entry.year, entry.title))
            else Except.error "Could not write to output file"
          else Except.error "Could not open output file"

/-- The entry loop of `main`: fold `processEntry` over the bibliography
sequence, accumulating the files written and the index records in order.  A
fatal iteration aborts the loop, keeping the writes made so far. -/
def runLoop (env : Env) (templ mdDir outDir : String) :
    List (String × Option Entry) → List (String × String) →
    List (String × String × String × String) →
    Except (List (String × String) × String)
      (List (String × String) × List (String × String × String × String))
  | [], writes, index => Except.ok (writes, index)
  | (key, e?) :: rest, writes, index =>
    match processEntry env templ mdDir outDir key e? with
    | Except.error msg => Except.error (writes, msg)
    | Except.ok (ws, rec?) =>
      runLoop env templ mdDir outDir rest (writes ++ ws) (index ++ rec?.toList)

/-- The usage line written to stderr on a wrong argument count. -/
def usageMsg : String :=
  "syntax: biblionotes <bibliography> <template> <markdown_dir> <output_dir>"

/-- `main` from the source.  `args` is the full `env::args()` vector, so
`args[0]` is the program name and the real work happens exactly when
`args.len() == 5` (four positional arguments).  The index data map is listed
in `BTreeMap` key order: `"content" < "title"`. -/
def mainRun (env : Env) (args : List String) : RunResult :=
  if args.length = 5 then
    match read_bib env (args.getD 1 "") with
    | Except.error e => RunResult.fatal [] e
    | Except.ok entries =>
      match env.fs (args.getD 2 "") with
      | FileState.absent => RunResult.fatal [] "Could not open template file"
      | FileState.openError => RunResult.fatal [] "Could not open template file"
      | FileState.unreadable => RunResult.fatal [] "Could not read template file"
      | FileState.readable templContents =>
        if env.registerOk templContents then
          match runLoop env templContents (args.getD 3 "") (args.getD 4 "")
              entries [] [] with
          | Except.error (writes, msg) => RunResult.fatal writes msg
          | Except.ok (writes, index) =>
            match env.hbsRender templContents
                [("content", makeIndex index),
                 ("title", "Annotated bibliography")] with
            | none => RunResult.fatal writes "Handlebars failed to run"
            | some renderedIndex =>
              let indexPath := args.getD 4 "" ++ "/index.html"
              if env.createOk indexPath then
                if env.writeOk indexPath then
                  RunResult.ok (writes ++ [(indexPath, renderedIndex ++ "\n")])
                else RunResult.fatal writes "Could not write to index file"
              else RunResult.fatal writes "Could not open index file"
        else RunResult.fatal [] "Could not register template"
  else RunResult.usage usageMsg

/-- Specification-side mirror of the success path of one loop iteration:
`some (entry, page)` when the entry has a record, its markdown file is
readable, pandoc succeeds and handlebars succeeds, where `page` is the final
templated HTML; `none` otherwise. -/
def renderEntry (env : Env) (templ mdDir key : String) (entry? : Option Entry) :
    Option (Entry × String) :=
  entry?.bind fun e =>
    match env.fs (mdDir ++ "/" ++ key ++ ".md") with
    | FileState.readable md =>
      (env.pandocRun md).bind fun body =>
        (env.hbsRender templ
          [("content", headerFragment e ++ body), ("title", e.title)]).map
          fun page => (e, page)
    | _ => none

/-- The ordered sequence of rendered entries of a run: each bibliography
entry that reaches the write stage, as `(key, record, page)`, in bibliography
order. -/
def renderedOf (env : Env) (templ mdDir : String)
    (entries : List (String × Option Entry)) : List (String × Entry × String) :=
  entries.filterMap fun p =>
    (renderEntry env templ mdDir p.1 p.2).map fun q => (p.1, q)

/-- Apply an ordered list of `(path, contents)` writes to a directory
snapshot; later writes overwrite earlier ones. -/
def applyWrites : (String → Option String) → List (String × String) →
    (String → Option String)
  | dir, [] => dir
  | dir, (p, c) :: rest =>
    applyWrites (fun q => if q = p then some c else dir q) rest

/-- The output directory after a run, starting from the snapshot `dir`:
completed and fatal runs leave their writes, the usage branch touches
nothing. -/
def runOutputDir (env : Env) (args : List String)
    (dir : String → Option String) : String → Option String :=
  match mainRun env args with
  | RunResult.ok writes => applyWrites dir writes
  | RunResult.fatal writes _ => applyWrites dir writes
  | RunResult.usage _ => dir

/-- Folding string concatenation from an arbitrary start equals concatenating
the start with the fold from the empty string. -/
theorem string_foldl_append (l : List String) : ∀ s : String,
    List.foldl (fun r t => r ++ t) s l =
      s ++ List.foldl (fun r t => r ++ t) "" l := by
  induction l with
  | nil => intro s; simp
  | cons a l ih =>
    intro s
    simp only [List.foldl_cons]
    rw [ih (s ++ a), ih ("" ++ a)]
    simp [String.append_assoc]

/-- Unrolling `makeIndex`'s fold: the output is the introduction, one item
per record in order, and the closing tag. -/
theorem makeIndex_eq_join (index : List (String × String × String × String)) :
    makeIndex index = indexIntro ++ String.join (index.map indexItem) ++ "</ul>" := by
  have aux : ∀ (l : List (String × String × String × String)) (s : String),
      l.foldl (fun content r => content ++ indexItem r) s =
        s ++ String.join (l.map indexItem) := by
    intro l
    induction l with
    | nil => intro s; simp [String.join]
    | cons a l ih =>
      intro s
      simp only [List.foldl_cons, List.map_cons]
      rw [ih (s ++ indexItem a)]
      show s ++ indexItem a ++ String.join (List.map indexItem l) =
        s ++ String.join (indexItem a :: List.map indexItem l)
      simp only [String.join, List.foldl_cons]
      rw [string_foldl_append (List.map indexItem l) ("" ++ indexItem a)]
      simp [String.append_assoc]
  unfold makeIndex
  rw [aux]

/-- Characterization of one loop iteration that does not panic: either the
entry is skipped (nothing written, no index record) and it is not a rendered
entry, or it is rendered to a page, exactly one file is written and exactly
one index record is pushed, with filename `key ++ ".html"`. -/
theorem processEntry_ok_iff (env : Env) (templ mdDir outDir key : String)
    (entry? : Option Entry)
    (ws : List (String × String))
    (rec? : Option (String × String × String × String))
    (h : processEntry env templ mdDir outDir key entry? = Except.ok (ws, rec?)) :
    (renderEntry env templ mdDir key entry? = none ∧ ws = [] ∧ rec? = none) ∨
    (∃ e page, renderEntry env templ mdDir key entry? = some (e, page) ∧
      ws = [(outDir ++ "/" ++ (key ++ ".html"), page ++ "\n")] ∧
      rec? = some (key ++ ".html", e.author, e.year, e.title)) := by
  cases entry? with
  | none =>
    left
    simp only [processEntry, Except.ok.injEq, Prod.mk.injEq] at h
    simp [renderEntry, h.1, h.2]
  | some e =>
    simp only [processEntry, renderEntry, Option.bind_some]
    cases hfs : env.fs (mdDir ++ "/" ++ key ++ ".md") with
    | absent =>
      left
      simp only [processEntry, hfs, Except.ok.injEq, Prod.mk.injEq] at h
      simp [h.1, h.2]
    | openError =>
      left
      simp only [processEntry, hfs, Except.ok.injEq, Prod.mk.injEq] at h
      simp [h.1, h.2]
    | unreadable => simp [processEntry, hfs] at h
    | readable md =>
      simp only [processEntry, hfs] at h
      cases hpd : env.pandocRun md with
      | none => simp [hpd] at h
      | some body =>
        simp only [hpd] at h
        cases hhb : env.hbsRender templ
            [("content", headerFragment e ++ body), ("title", e.title)] with
        | none => simp [hhb] at h
        | some page =>
          simp only [hhb] at h
          by_cases hc : env.createOk (outDir ++ "/" ++ (key ++ ".html")) = true
          · by_cases hw : env.writeOk (outDir ++ "/" ++ (key ++ ".html")) = true
            · right
              simp only [hc, hw, if_true, Except.ok.injEq, Prod.mk.injEq] at h
              exact ⟨e, page, by simp [hpd, hhb], h.1.symm, h.2.symm⟩
            · simp [hc, hw] at h
          · simp [hc] at h

/-- Invariant of the entry loop: when it completes without a fatal error, the
files written and the index records accumulated are exactly one per rendered
entry, in bibliography order, appended to the accumulators it started from. -/
theorem runLoop_ok_spec (env : Env) (templ mdDir outDir : String)
    (entries : List (String × Option Entry))
    (ws0 : List (String × String))
    (ix0 : List (String × String × String × String))
    (writes : List (String × String))
    (index : List (String × String × String × String))
    (h : runLoop env templ mdDir outDir entries ws0 ix0 =
      Except.ok (writes, index)) :
    writes = ws0 ++ (renderedOf env templ mdDir entries).map
        (fun p => (outDir ++ "/" ++ (p.1 ++ ".html"), p.2.2 ++ "\n")) ∧
    index = ix0 ++ (renderedOf env templ mdDir entries).map
        (fun p => (p.1 ++ ".html", p.2.1.author, p.2.1.year, p.2.1.title)) := by
  induction entries generalizing ws0 ix0 with
  | nil =>
    simp only [runLoop, Except.ok.injEq, Prod.mk.injEq] at h
    simp [renderedOf, h.1, h.2]
  | cons hd rest ih =>
    obtain ⟨key, e?⟩ := hd
    simp only [runLoop] at h
    cases hpe : processEntry env templ mdDir outDir key e? with
    | error msg => simp [hpe] at h
    | ok out =>
      obtain ⟨ws, rec?⟩ := out
      simp only [hpe] at h
      obtain ⟨hw, hx⟩ := ih (ws0 ++ ws) (ix0 ++ rec?.toList) h
      rcases processEntry_ok_iff env templ mdDir outDir key e? ws rec? hpe with
        ⟨hre, hws, hrec⟩ | ⟨e, page, hre, hws, hrec⟩
      · subst hws hrec
        constructor
        · rw [hw]; simp [renderedOf, List.filterMap_cons, hre]
        · rw [hx]; simp [renderedOf, List.filterMap_cons, hre]
      · subst hws hrec
        constructor
        · rw [hw]; simp [renderedOf, List.filterMap_cons, hre]
        · rw [hx]; simp [renderedOf, List.filterMap_cons, hre]

/-- Applying the same writes to pointwise-equal directory snapshots gives
pointwise-equal directories. -/
theorem applyWrites_congr (d1 d2 : String → Option String)
    (ws : List (String × String)) (h : ∀ q, d1 q = d2 q) :
    ∀ q, applyWrites d1 ws q = applyWrites d2 ws q := by
  induction ws generalizing d1 d2 with
  | nil => exact h
  | cons a rest ih =>
    obtain ⟨p, c⟩ := a
    intro q
    exact ih (fun r => if r = p then some c else d1 r)
      (fun r => if r = p then some c else d2 r)
      (fun r => by by_cases hr : r = p <;> simp [hr, h r]) q

/-- A concrete bibliography record used in concrete evaluations. -/
def cEntry : Entry := ⟨"T1", "X", "2020"⟩

/-- A concrete environment: bibliography and template readable, the note
`mdd/k.md` readable, pandoc echoes its input, handlebars concatenates the
data values in map order, all output operations succeed.  The parsed
bibliography has key `k` with a record and key `b` without one. -/
def cEnvOk : Env where
  fs := fun p =>
    if p = "bib" then FileState.readable "BIB"
    else if p = "tmpl" then FileState.readable "TPL"
    else if p = "mdd/k.md" then FileState.readable "MD"
    else FileState.absent
  parseBib := fun _ => Except.ok [("k", some cEntry), ("b", none)]
  registerOk := fun _ => true
  pandocRun := fun s => some s
  hbsRender := fun _ data => some (String.join (data.map Prod.snd))
  createOk := fun _ => true
  writeOk := fun _ => true

/-- Like `cEnvOk`, but the note `mdd/k.md` exists and cannot be opened
(e.g. a permissions failure): `File::open` fails with an error other than
not-found. -/
def cEnvOpenErr : Env :=
  { cEnvOk with
    fs := fun p =>
      if p = "bib" then FileState.readable "BIB"
      else if p = "tmpl" then FileState.readable "TPL"
      else if p = "mdd/k.md" then FileState.openError
      else FileState.absent }

/-- Like `cEnvOk`, but the note `mdd/k.md` opens successfully and then fails
to read. -/
def cEnvUnread : Env :=
  { cEnvOk with
    fs := fun p =>
      if p = "bib" then FileState.readable "BIB"
      else if p = "tmpl" then FileState.readable "TPL"
      else if p = "mdd/k.md" then FileState.unreadable
      else FileState.absent }

/-- Like `cEnvOk`, but the bibliography parses to an empty entry list. -/
def cEnvEmptyBib : Env :=
  { cEnvOk with parseBib := fun _ => Except.ok [] }

/-- Claim C1 (as stated) is false on the code: here the content file
`mdd/k.md` exists but cannot be opened for reading (a non-not-found open
failure), yet the run does not abort fatally — it completes normally,
because `main` matches any `File::open` error with `continue`. -/
theorem pipeline_c1_counterexample :
    cEnvOpenErr.fs ("mdd" ++ "/" ++ "k" ++ ".md") = FileState.openError ∧
    (mainRun cEnvOpenErr ["biblionotes", "bib", "tmpl", "mdd", "out"]).completed
      = true ∧
    (mainRun cEnvOpenErr ["biblionotes", "bib", "tmpl", "mdd", "out"]).isFatal
      = false := by
  refine ⟨rfl, ?_, ?_⟩ <;> rfl

/-- Claim C1 (amended): any failure to OPEN an entry's content file —
whether the file does not exist or exists but cannot be opened (permissions,
I/O) — is a benign skip; only a read failure after a successful open aborts
the run fatally. -/
theorem pipeline_c1_amended (env : Env) (templ mdDir outDir key : String)
    (e : Entry) (rest : List (String × Option Entry))
    (writes : List (String × String))
    (index : List (String × String × String × String)) :
    (env.fs (mdDir ++ "/" ++ key ++ ".md") = FileState.absent ∨
        env.fs (mdDir ++ "/" ++ key ++ ".md") = FileState.openError →
      processEntry env templ mdDir outDir key (some e) = Except.ok ([], none)) ∧
    (env.fs (mdDir ++ "/" ++ key ++ ".md") = FileState.unreadable →
      runLoop env templ mdDir outDir ((key, some e) :: rest) writes index =
        Except.error (writes, "Could not read markdown file")) := by
  constructor
  · rintro (h | h) <;> simp [processEntry, h]
  · intro h
    simp [runLoop, processEntry, h]

/-- Witness for C1 (amended): a concrete open failure is skipped, and a
concrete post-open read failure aborts the loop fatally. -/
theorem pipeline_c1_amended_witness :
    processEntry cEnvOpenErr "TPL" "mdd" "out" "k" (some cEntry) =
      Except.ok ([], none) ∧
    runLoop cEnvUnread "TPL" "mdd" "out" [("k", some cEntry)] [] [] =
      Except.error ([], "Could not read markdown file") :=
  ⟨(pipeline_c1_amended cEnvOpenErr "TPL" "mdd" "out" "k" cEntry [] [] []).1
      (Or.inr rfl),
   (pipeline_c1_amended cEnvUnread "TPL" "mdd" "out" "k" cEntry [] [] []).2 rfl⟩

/-- Claim C2: when the entry loop completes, the index fragment is the fixed
introduction, then exactly one list item per rendered entry in bibliography
order — each of the shape `Author (Year) <a href="key.html">Title</a>` with
link target `key ++ ".html"` — then the closing tag. -/
theorem pipeline_c2 (env : Env) (templ mdDir outDir : String)
    (entries : List (String × Option Entry))
    (writes : List (String × String))
    (index : List (String × String × String × String))
    (h : runLoop env templ mdDir outDir entries [] [] =
      Except.ok (writes, index)) :
    makeIndex index =
      indexIntro ++
        String.join ((renderedOf env templ mdDir entries).map
          (fun p => "<li>" ++ p.2.1.author ++ " (" ++ p.2.1.year ++
            ") <a href=\"" ++ (p.1 ++ ".html") ++ "\">" ++ p.2.1.title ++
            "</a>\n")) ++ "</ul>" := by
  obtain ⟨-, hx⟩ :=
    runLoop_ok_spec env templ mdDir outDir entries [] [] writes index h
  rw [hx, makeIndex_eq_join]
  simp only [List.nil_append, List.map_map]
  rfl

/-- Witness for C2 at a concrete run with one rendered entry and one skipped
entry. -/
theorem pipeline_c2_witness :
    makeIndex [("k" ++ ".html", cEntry.author, cEntry.year, cEntry.title)] =
      indexIntro ++
        String.join
          ((renderedOf cEnvOk "TPL" "mdd"
              [("k", some cEntry), ("b", none)]).map
            (fun p => "<li>" ++ p.2.1.author ++ " (" ++ p.2.1.year ++
              ") <a href=\"" ++ (p.1 ++ ".html") ++ "\">" ++ p.2.1.title ++
              "</a>\n")) ++ "</ul>" :=
  pipeline_c2 cEnvOk "TPL" "mdd" "out" [("k", some cEntry), ("b", none)] _ _ rfl

/-- Claim C3: on a completed entry loop, index records and written files are
in one-to-one, order-preserving correspondence: mapping each index record's
filename under the output directory gives exactly the list of paths written. -/
theorem pipeline_c3 (env : Env) (templ mdDir outDir : String)
    (entries : List (String × Option Entry))
    (writes : List (String × String))
    (index : List (String × String × String × String))
    (h : runLoop env templ mdDir outDir entries [] [] =
      Except.ok (writes, index)) :
    index.map (fun r => outDir ++ "/" ++ r.1) = writes.map Prod.fst := by
  obtain ⟨hw, hx⟩ :=
    runLoop_ok_spec env templ mdDir outDir entries [] [] writes index h
  rw [hw, hx]
  simp only [List.nil_append, List.map_map]
  rfl

/-- Witness for C3 at a concrete run with one rendered entry. -/
theorem pipeline_c3_witness :
    ([(("k" : String) ++ ".html", cEntry.author, cEntry.year, cEntry.title)].map
        (fun r => "out" ++ "/" ++ r.1)) =
      ([(("out" : String) ++ "/" ++ ("k" ++ ".html"),
          String.join [headerFragment cEntry ++ "MD", cEntry.title] ++ "\n")].map
        Prod.fst) :=
  pipeline_c3 cEnvOk "TPL" "mdd" "out" [("k", some cEntry), ("b", none)] _ _ rfl

/-- Claim C4: an entry whose record is absent is skipped: the iteration
writes no file and pushes no index record, and the loop simply moves on to
the remaining entries. -/
theorem pipeline_c4 (env : Env) (templ mdDir outDir key : String)
    (rest : List (String × Option Entry)) (writes : List (String × String))
    (index : List (String × String × String × String)) :
    processEntry env templ mdDir outDir key none = Except.ok ([], none) ∧
    runLoop env templ mdDir outDir ((key, none) :: rest) writes index =
      runLoop env templ mdDir outDir rest writes index := by
  constructor
  · rfl
  · simp [runLoop, processEntry]

/-- Claim C5: an entry with a present record whose content file
`mdDir/key.md` does not exist is skipped: no file written, no index record,
and the loop continues with the remaining entries. -/
theorem pipeline_c5 (env : Env) (templ mdDir outDir key : String) (e : Entry)
    (rest : List (String × Option Entry)) (writes : List (String × String))
    (index : List (String × String × String × String))
    (h : env.fs (mdDir ++ "/" ++ key ++ ".md") = FileState.absent) :
    processEntry env templ mdDir outDir key (some e) = Except.ok ([], none) ∧
    runLoop env templ mdDir outDir ((key, some e) :: rest) writes index =
      runLoop env templ mdDir outDir rest writes index := by
  have hpe : processEntry env templ mdDir outDir key (some e) =
      Except.ok ([], none) := by
    simp [processEntry, h]
  refine ⟨hpe, ?_⟩
  simp [runLoop, hpe]

/-- Witness for C5: in `cEnvOk` the file `mdd/nokey.md` does not exist, and
the entry `nokey` is skipped. -/
theorem pipeline_c5_witness :
    processEntry cEnvOk "TPL" "mdd" "out" "nokey" (some cEntry) =
      Except.ok ([], none) ∧
    runLoop cEnvOk "TPL" "mdd" "out" [("nokey", some cEntry)] [] [] =
      runLoop cEnvOk "TPL" "mdd" "out" [] [] [] :=
  pipeline_c5 cEnvOk "TPL" "mdd" "out" "nokey" cEntry [] [] [] rfl

/-- Claim C6: a rendered entry's page is produced by prefixing the converted
body with the header fragment embedding `title`, `author`, `year`, `title`
(in that order), and expanding the template with exactly the two named
values `content = header ++ body` and `title = record.title` (listed in
`BTreeMap` key order); the resulting page is what gets written, with the
trailing newline of `writeln!`. -/
theorem pipeline_c6 (env : Env) (templ mdDir outDir key : String) (e : Entry)
    (md body page : String)
    (hmd : env.fs (mdDir ++ "/" ++ key ++ ".md") = FileState.readable md)
    (hpd : env.pandocRun md = some body)
    (hhb : env.hbsRender templ
      [("content",
        "<header><h1>" ++ e.title ++ "</h1><cite>" ++ e.author ++ " (" ++
          e.year ++ ") <em>" ++ e.title ++ "</em></cite></header>\n" ++ body),
       ("title", e.title)] = some page)
    (hc : env.createOk (outDir ++ "/" ++ (key ++ ".html")) = true)
    (hw : env.writeOk (outDir ++ "/" ++ (key ++ ".html")) = true) :
    processEntry env templ mdDir outDir key (some e) =
      Except.ok ([(outDir ++ "/" ++ (key ++ ".html"), page ++ "\n")],
        some (key ++ ".html", e.author, e.year, e.title)) := by
  have hhb2 : env.hbsRender templ
      [("content", headerFragment e ++ body), ("title", e.title)] =
        some page := hhb
  simp [processEntry, hmd, hpd, hhb2, hc, hw]

/-- Witness for C6 at the concrete environment `cEnvOk`, entry `k`. -/
theorem pipeline_c6_witness :
    processEntry cEnvOk "TPL" "mdd" "out" "k" (some cEntry) =
      Except.ok ([("out" ++ "/" ++ ("k" ++ ".html"),
          String.join [headerFragment cEntry ++ "MD", cEntry.title] ++ "\n")],
        some ("k" ++ ".html", cEntry.author, cEntry.year, cEntry.title)) :=
  pipeline_c6 cEnvOk "TPL" "mdd" "out" "k" cEntry "MD" "MD"
    (String.join [headerFragment cEntry ++ "MD", cEntry.title])
    rfl rfl rfl rfl rfl

/-- Claim C7: whenever a run completes without a fatal error, its very last
write is `index.html` in the output directory — the index is always built
and written after the loop, regardless of how many entries were rendered. -/
theorem pipeline_c7 (env : Env) (args : List String)
    (writes : List (String × String))
    (h : mainRun env args = RunResult.ok writes) :
    ∃ contents,
      writes.getLast? = some (args.getD 4 "" ++ "/index.html", contents) := by
  unfold mainRun at h
  split at h
  · split at h
    · cases h
    · split at h
      · cases h
      · cases h
      · cases h
      · split at h
        · split at h
          · cases h
          · split at h
            · cases h
            · simp only [] at h
              split at h
              · split at h
                · cases h
                  exact ⟨_, List.getLast?_concat _⟩
                · cases h
              · cases h
        · cases h
  · cases h

/-- Witness for C7: a concrete completed run whose bibliography parses to
zero entries still writes the index page (with the empty listing) as its
only output file. -/
theorem pipeline_c7_witness :
    ∃ contents,
      ([(("out" : String) ++ "/index.html",
          String.join [makeIndex [], "Annotated bibliography"] ++ "\n")]).getLast?
        = some ((["p", "bib", "tmpl", "mdd", "out"].getD 4 "") ++ "/index.html",
            contents) :=
  pipeline_c7 cEnvEmptyBib ["p", "bib", "tmpl", "mdd", "out"] _ rfl

/-- Claim C8: with an argument count other than five (program name plus four
positional arguments), the run only prints the usage line: the result is the
`usage` outcome with no writes, and it is independent of the entire
environment — no file is opened, read, created or written. -/
theorem pipeline_c8 (env env2 : Env) (args : List String)
    (h : args.length ≠ 5) :
    mainRun env args = RunResult.usage usageMsg ∧
      mainRun env args = mainRun env2 args := by
  constructor
  · unfold mainRun
    rw [if_neg h]
  · unfold mainRun
    rw [if_neg h, if_neg h]

/-- Witness for C8 at a concrete one-element argument vector and two
different environments. -/
theorem pipeline_c8_witness :
    mainRun cEnvOk ["p"] = RunResult.usage usageMsg ∧
      mainRun cEnvOk ["p"] = mainRun cEnvEmptyBib ["p"] :=
  pipeline_c8 cEnvOk cEnvEmptyBib ["p"] (by decide)

/-- Claim C9: the pipeline is a deterministic function of its inputs: two
runs with the same environment and arguments over (possibly different) empty
output directories leave pointwise-identical output directories. -/
theorem pipeline_c9 (env : Env) (args : List String)
    (d1 d2 : String → Option String)
    (h1 : ∀ p, d1 p = none) (h2 : ∀ p, d2 p = none) (p : String) :
    runOutputDir env args d1 p = runOutputDir env args d2 p := by
  have hd : ∀ q, d1 q = d2 q := fun q => by rw [h1 q, h2 q]
  unfold runOutputDir
  cases mainRun env args with
  | ok writes => exact applyWrites_congr d1 d2 writes hd p
  | fatal writes msg => exact applyWrites_congr d1 d2 writes hd p
  | usage msg => exact hd p

/-- Witness for C9 at a concrete environment, arguments, empty directories
and probe path. -/
theorem pipeline_c9_witness :
    runOutputDir cEnvOk ["p", "bib", "tmpl", "mdd", "out"] (fun _ => none) "x" =
      runOutputDir cEnvOk ["p", "bib", "tmpl", "mdd", "out"] (fun _ => none)
        "x" :=
  pipeline_c9 cEnvOk ["p", "bib", "tmpl", "mdd", "out"]
    (fun _ => none) (fun _ => none) (fun _ => rfl) (fun _ => rfl) "x"

/-- Claim C10: for every record list, the index fragment starts with the
introduction exactly as emitted by the source's raw string literal — in
particular the list-opening tag is the nine-character-quirk
`<ul class=\"nonetype\">` with a literal backslash before each quotation
mark, because `r#"..."#` does not interpret `\"` as an escape. -/
theorem pipeline_c10 (rs : List (String × String × String × String)) :
    ∃ rest, makeIndex rs =
      "<h1>Annotated bibliography</h1>\n<p>This is an annotated bibliography of various papers I find interesting. It is automatically generated from a BibTeX file and an archive of Markdown files.</p>\n<ul class=\\\"nonetype\\\">\n"
        ++ rest := by
  refine ⟨String.join (rs.map indexItem) ++ "</ul>", ?_⟩
  rw [makeIndex_eq_join, String.append_assoc]
  rfl

end Biblionotes
